import Mathlib

/-!
Verification development for the fyyur booking-directory application
(src/app.py).  The route handlers of app.py are shallowly embedded as
pure Lean functions over an explicit database state; the SQL ILIKE
operator used by the search routes is embedded as a character-list
matcher; wall-clock time is an explicit parameter.
-/

namespace Fyyur

/-- Modelled from the spec: the Venue entity of models.py (models.py is not
part of src; fields are taken from the data-model section of the spec). -/
structure Venue where
  id : Nat
  name : String
  city : String
  state : String
  address : String
  phone : String
  website : String
  facebook_link : String
  image_link : String
  genres : List String
  seeking_talent : Bool
  seeking_description : String
  deriving DecidableEq

/-- Modelled from the spec: the Artist entity of models.py. -/
structure Artist where
  id : Nat
  name : String
  city : String
  state : String
  phone : String
  website : String
  facebook_link : String
  image_link : String
  genres : List String
  seeking_venue : Bool
  seeking_description : String
  deriving DecidableEq

/-- Modelled from the spec: the Show entity of models.py, a join record with
one venue reference, one artist reference and a start time (embedded as an
integer timestamp). -/
structure Show where
  id : Nat
  venue_id : Nat
  artist_id : Nat
  start_time : Int
  deriving DecidableEq

/-- The relational state the handlers of app.py read and mutate. -/
structure DB where
  venues : List Venue
  artists : List Artist
  shows : List Show
  deriving DecidableEq

/-- Database well-formedness: primary keys are unique and every Show
references an existing Venue and an existing Artist (the referential
integrity invariant of the data model). -/
def wfDB (st : DB) : Prop :=
  (st.venues.map Venue.id).Nodup ∧ (st.artists.map Artist.id).Nodup ∧
  (∀ s ∈ st.shows, (∃ v ∈ st.venues, v.id = s.venue_id) ∧
    (∃ a ∈ st.artists, a.id = s.artist_id))

/-- Case-insensitive character comparison, as performed by SQL ILIKE. -/
def lowerEq (a b : Char) : Bool := a.toLower == b.toLower

/-- Embeds the SQL ILIKE operator used at app.py lines 86, 244, 414 and 415:
a percent sign matches any (possibly empty) substring, an underscore matches
exactly one character, any other pattern character matches one input
character case-insensitively. -/
def likeMatch : List Char → List Char → Bool
  | [], s => s.isEmpty
  | p :: pt, s =>
    if p = '%' then s.tails.any (fun t => likeMatch pt t)
    else
      match s with
      | [] => false
      | c :: st => if p = '_' then likeMatch pt st else lowerEq p c && likeMatch pt st

/-- The pattern the search routes build from the raw request term: the term
is interpolated unescaped between two percent signs (app.py lines 86, 244,
411). -/
def searchPattern (q : String) : List Char := '%' :: (q.data ++ ['%'])

/-- Case-insensitive prefix test, helper for the spec-side notion of
case-insensitive substring containment. -/
def startsWithCI : List Char → List Char → Bool
  | [], _ => true
  | _ :: _, [] => false
  | a :: as, b :: bs => lowerEq a b && startsWithCI as bs

/-- Case-insensitive substring containment.  This is the match policy as the
spec words it (search section: a case-insensitive substring match against
the name field); it is compared against the ILIKE behaviour the code
actually has. -/
def substrCI (n h : List Char) : Bool := h.tails.any (fun t => startsWithCI n t)

/-- The search term is free of the SQL LIKE wildcard characters. -/
def noWildcard (q : String) : Prop := '%' ∉ q.data ∧ '_' ∉ q.data

instance (q : String) : Decidable (noWildcard q) :=
  inferInstanceAs (Decidable ('%' ∉ q.data ∧ '_' ∉ q.data))

instance (st : DB) : Decidable (wfDB st) :=
  inferInstanceAs (Decidable ((st.venues.map Venue.id).Nodup ∧
    (st.artists.map Artist.id).Nodup ∧
    (∀ s ∈ st.shows, (∃ v ∈ st.venues, v.id = s.venue_id) ∧
      (∃ a ∈ st.artists, a.id = s.artist_id))))

/-- The response the three search routes render: a count and the row set
(app.py lines 88-91, 249-252, 418-421). -/
structure SearchResponse (α : Type) where
  count : Nat
  data : List α
  deriving DecidableEq

/-- Predicate of the venue search query: Venue.name.ilike(f-string percent q
percent), app.py line 86. -/
def venueNameMatches (q : String) (v : Venue) : Bool :=
  likeMatch (searchPattern q) v.name.data

/-- Predicate of the artist search query: Artist.name.ilike(...), app.py
line 244. -/
def artistNameMatches (q : String) (a : Artist) : Bool :=
  likeMatch (searchPattern q) a.name.data

/-- Embeds search_venues (app.py lines 83-93): filter venues by ILIKE on the
name, return the count of the query and the query rows. -/
def search_venues (st : DB) (q : String) : SearchResponse Venue :=
  let matched := st.venues.filter (venueNameMatches q)
  { count := matched.length, data := matched }

/-- Embeds search_artists (app.py lines 241-254). -/
def search_artists (st : DB) (q : String) : SearchResponse Artist :=
  let matched := st.artists.filter (artistNameMatches q)
  { count := matched.length, data := matched }

/-- Embeds search_shows (app.py lines 408-423): Show joined to Artist and to
Venue, filtered by ILIKE on the venue name OR the artist name; the query
selects the Show of each joined row. -/
def search_shows (st : DB) (search_term : String) : SearchResponse Show :=
  let q := searchPattern search_term
  let rows := st.shows.flatMap (fun s =>
    (st.artists.filter (fun a => a.id == s.artist_id)).flatMap (fun a =>
      (st.venues.filter (fun v => v.id == s.venue_id)).filterMap (fun v =>
        if likeMatch q v.name.data || likeMatch q a.name.data then some s else none)))
  { count := rows.length, data := rows }

/-- Embeds the past_shows query of show_venue (app.py lines 99-104):
query(Artist, Show) joined to Show and Venue, filtered by
Show.venue_id == venue_id, Show.artist_id == Artist.id and
Show.start_time < now. -/
def show_venue_past (st : DB) (venue_id : Nat) (now : Int) : List (Artist × Show) :=
  st.artists.flatMap (fun a =>
    (st.shows.filter (fun s =>
      s.artist_id == a.id &&
      st.venues.any (fun v => v.id == s.venue_id) &&
      s.venue_id == venue_id &&
      decide (s.start_time < now))).map (fun s => (a, s)))

/-- Embeds the upcoming_shows query of show_venue (app.py lines 106-111):
same shape with Show.start_time >= now. -/
def show_venue_upcoming (st : DB) (venue_id : Nat) (now : Int) : List (Artist × Show) :=
  st.artists.flatMap (fun a =>
    (st.shows.filter (fun s =>
      s.artist_id == a.id &&
      st.venues.any (fun v => v.id == s.venue_id) &&
      s.venue_id == venue_id &&
      decide (s.start_time ≥ now))).map (fun s => (a, s)))

/-- Embeds the past_shows query of show_artist (app.py lines 260-266):
query(Venue, Show) joined to Show and Artist, filtered by
Show.venue_id == artist_id (sic, the filter compares venue_id with the
artist id), Show.artist_id == Artist.id and Show.start_time < now. -/
def show_artist_past (st : DB) (artist_id : Nat) (now : Int) : List (Venue × Show) :=
  st.venues.flatMap (fun v =>
    (st.shows.filter (fun s =>
      s.venue_id == v.id &&
      st.artists.any (fun a => a.id == s.artist_id) &&
      s.venue_id == artist_id &&
      decide (s.start_time < now))).map (fun s => (v, s)))

/-- Embeds the upcoming_shows query of show_artist (app.py lines 267-273):
same shape with Show.start_time >= now, again filtering on
Show.venue_id == artist_id. -/
def show_artist_upcoming (st : DB) (artist_id : Nat) (now : Int) : List (Venue × Show) :=
  st.venues.flatMap (fun v =>
    (st.shows.filter (fun s =>
      s.venue_id == v.id &&
      st.artists.any (fun a => a.id == s.artist_id) &&
      s.venue_id == artist_id &&
      decide (s.start_time ≥ now))).map (fun s => (v, s)))

/-- The pages the handlers render or redirect to. -/
inductive Page
  | home
  | newVenueForm
  | editVenueForm
  | newArtistForm
  | editArtistForm
  | newShowForm
  | venueDetail (venue_id : Nat)
  | artistDetail (artist_id : Nat)
  deriving DecidableEq

/-- The HTTP outcome of a handler: a template render, a redirect, an empty
body with an explicit status code, or the 404 raised by get_or_404. -/
inductive HttpResult
  | render (page : Page)
  | redirect (page : Page)
  | emptyBody (status : Nat)
  | notFound
  deriving DecidableEq

/-- The observable effect of one handler invocation: the HTTP result, the
flash messages emitted, the database state afterwards, and whether
db.session.close() ran on the taken exit path. -/
structure HandlerResult where
  result : HttpResult
  flashes : List String
  db : DB
  sessionClosed : Bool
  deriving DecidableEq

/-- Modelled from the spec: the validated field set of VenueForm (forms.py
is not part of src). -/
structure VenueFormData where
  name : String
  city : String
  state : String
  address : String
  phone : String
  website : String
  facebook_link : String
  image_link : String
  genres : List String
  seeking_talent : Bool
  seeking_description : String
  deriving DecidableEq

/-- Modelled from the spec: the validated field set of ArtistForm. -/
structure ArtistFormData where
  name : String
  city : String
  state : String
  phone : String
  website : String
  facebook_link : String
  image_link : String
  genres : List String
  seeking_venue : Bool
  seeking_description : String
  deriving DecidableEq

/-- Modelled from the spec: the validated field set of ShowForm. -/
structure ShowFormData where
  venue_id : Nat
  artist_id : Nat
  start_time : Int
  deriving DecidableEq

/-- Primary key the database sequence assigns to a freshly committed venue
row. -/
def nextVenueId (st : DB) : Nat := (st.venues.map Venue.id).foldr max 0 + 1

/-- Primary key assigned to a freshly committed artist row. -/
def nextArtistId (st : DB) : Nat := (st.artists.map Artist.id).foldr max 0 + 1

/-- Primary key assigned to a freshly committed show row. -/
def nextShowId (st : DB) : Nat := (st.shows.map Show.id).foldr max 0 + 1

/-- form.populate_obj on a fresh or loaded Venue: every validated form field
is copied onto the row; the primary key is not a form field. -/
def venueFromForm (f : VenueFormData) (id : Nat) : Venue :=
  { id := id, name := f.name, city := f.city, state := f.state,
    address := f.address, phone := f.phone, website := f.website,
    facebook_link := f.facebook_link, image_link := f.image_link,
    genres := f.genres, seeking_talent := f.seeking_talent,
    seeking_description := f.seeking_description }

/-- form.populate_obj on a fresh or loaded Artist. -/
def artistFromForm (f : ArtistFormData) (id : Nat) : Artist :=
  { id := id, name := f.name, city := f.city, state := f.state,
    phone := f.phone, website := f.website,
    facebook_link := f.facebook_link, image_link := f.image_link,
    genres := f.genres, seeking_venue := f.seeking_venue,
    seeking_description := f.seeking_description }

/-- form.populate_obj on a fresh Show. -/
def showFromForm (f : ShowFormData) (id : Nat) : Show :=
  { id := id, venue_id := f.venue_id, artist_id := f.artist_id,
    start_time := f.start_time }

/-- Embeds create_venue (app.py lines 145-168).  validated is the outcome of
form.validate_on_submit(), commitOk the outcome of the commit attempt. -/
def create_venue (st : DB) (form : VenueFormData) (validated commitOk : Bool) :
    HandlerResult :=
  if validated then
    let venue := venueFromForm form (nextVenueId st)
    if commitOk then
      { result := .redirect (.venueDetail venue.id),
        flashes := ["Venue " ++ venue.name ++ " was successfully listed!"],
        db := { st with venues := st.venues ++ [venue] },
        sessionClosed := false }
    else
      { result := .render .newVenueForm,
        flashes := ["An error occurred. Venue " ++ form.name ++ " could not be listed."],
        db := st,
        sessionClosed := true }
  else
    { result := .render .newVenueForm, flashes := [], db := st, sessionClosed := false }

/-- Embeds edit_venue (app.py lines 171-209): the row is loaded with
get_or_404, the form fields are copied onto it and committed. -/
def edit_venue (st : DB) (venue_id : Nat) (form : VenueFormData)
    (validated commitOk : Bool) : HandlerResult :=
  match st.venues.find? (fun v => v.id == venue_id) with
  | none => { result := .notFound, flashes := [], db := st, sessionClosed := false }
  | some venue =>
    let venue_name := venue.name
    if validated then
      let updated := venueFromForm form venue.id
      if commitOk then
        { result := .redirect (.venueDetail venue_id),
          flashes := ["Venue " ++ updated.name ++ " was successfully updated!"],
          db := { st with
            venues := st.venues.map (fun w => if w.id == venue_id then updated else w) },
          sessionClosed := false }
      else
        { result := .render .editVenueForm,
          flashes := ["An error occurred. Venue " ++ venue_name ++ " could not be edited."],
          db := st,
          sessionClosed := true }
    else
      { result := .render .editVenueForm, flashes := [], db := st, sessionClosed := false }

/-- Embeds delete_venue (app.py lines 212-230): get_or_404, delete, commit;
the finally block closes the session on the 204 path and the 500 path
alike. -/
def delete_venue (st : DB) (venue_id : Nat) (commitOk : Bool) : HandlerResult :=
  match st.venues.find? (fun v => v.id == venue_id) with
  | none => { result := .notFound, flashes := [], db := st, sessionClosed := false }
  | some v =>
    if commitOk then
      { result := .emptyBody 204,
        flashes := [],
        db := { st with venues := st.venues.filter (fun w => !(w.id == venue_id)) },
        sessionClosed := true }
    else
      { result := .emptyBody 500,
        flashes := ["An error occurred. Venue " ++ v.name ++ " could not be deleted."],
        db := st,
        sessionClosed := true }

/-- Embeds create_artist (app.py lines 306-329). -/
def create_artist (st : DB) (form : ArtistFormData) (validated commitOk : Bool) :
    HandlerResult :=
  if validated then
    let artist := artistFromForm form (nextArtistId st)
    if commitOk then
      { result := .redirect (.artistDetail artist.id),
        flashes := ["Artist " ++ artist.name ++ " was successfully listed!"],
        db := { st with artists := st.artists ++ [artist] },
        sessionClosed := false }
    else
      { result := .render .newArtistForm,
        flashes := ["An error occurred. Artist " ++ form.name ++ " could not be listed."],
        db := st,
        sessionClosed := true }
  else
    { result := .render .newArtistForm, flashes := [], db := st, sessionClosed := false }

/-- Embeds edit_artist (app.py lines 332-357).  Note the success branch
returns the redirect with no flash call (app.py line 354). -/
def edit_artist (st : DB) (artist_id : Nat) (form : ArtistFormData)
    (validated commitOk : Bool) : HandlerResult :=
  match st.artists.find? (fun a => a.id == artist_id) with
  | none => { result := .notFound, flashes := [], db := st, sessionClosed := false }
  | some artist =>
    let artist_name := artist.name
    if validated then
      let updated := artistFromForm form artist.id
      if commitOk then
        { result := .redirect (.artistDetail artist_id),
          flashes := [],
          db := { st with
            artists := st.artists.map (fun w => if w.id == artist_id then updated else w) },
          sessionClosed := false }
      else
        { result := .render .editArtistForm,
          flashes := ["An error occurred. Artist " ++ artist_name ++ " could not be edited."],
          db := st,
          sessionClosed := true }
    else
      { result := .render .editArtistForm, flashes := [], db := st, sessionClosed := false }

/-- Embeds delete_artist (app.py lines 360-372): unlike delete_venue there
is no finally block, so db.session.close() runs only inside the except
branch; the success path returns without closing. -/
def delete_artist (st : DB) (artist_id : Nat) (commitOk : Bool) : HandlerResult :=
  match st.artists.find? (fun a => a.id == artist_id) with
  | none => { result := .notFound, flashes := [], db := st, sessionClosed := false }
  | some a =>
    if commitOk then
      { result := .emptyBody 204,
        flashes := [],
        db := { st with artists := st.artists.filter (fun w => !(w.id == artist_id)) },
        sessionClosed := false }
    else
      { result := .emptyBody 500,
        flashes := ["An error occurred. Artist " ++ a.name ++ " could not be deleted."],
        db := st,
        sessionClosed := true }

/-- Embeds create_show (app.py lines 384-405).  Note the success branch
renders pages/home.html directly instead of redirecting (app.py line
403). -/
def create_show (st : DB) (form : ShowFormData) (validated commitOk : Bool) :
    HandlerResult :=
  if validated then
    let newShow := showFromForm form (nextShowId st)
    if commitOk then
      { result := .render .home,
        flashes := ["Show was successfully listed!"],
        db := { st with shows := st.shows ++ [newShow] },
        sessionClosed := false }
    else
      { result := .render .newShowForm,
        flashes := ["An error occurred. Show could not be listed."],
        db := st,
        sessionClosed := true }
  else
    { result := .render .newShowForm, flashes := [], db := st, sessionClosed := false }

/-- Venue fixture with the given key and name and empty remaining fields. -/
def mkVenue (id : Nat) (name : String) : Venue :=
  { id := id, name := name, city := "", state := "", address := "", phone := "",
    website := "", facebook_link := "", image_link := "", genres := [],
    seeking_talent := false, seeking_description := "" }

/-- Artist fixture with the given key and name. -/
def mkArtist (id : Nat) (name : String) : Artist :=
  { id := id, name := name, city := "", state := "", phone := "",
    website := "", facebook_link := "", image_link := "", genres := [],
    seeking_venue := false, seeking_description := "" }

/-- Venue form fixture carrying only a name. -/
def mkVenueForm (name : String) : VenueFormData :=
  { name := name, city := "", state := "", address := "", phone := "",
    website := "", facebook_link := "", image_link := "", genres := [],
    seeking_talent := false, seeking_description := "" }

/-- Artist form fixture carrying only a name. -/
def mkArtistForm (name : String) : ArtistFormData :=
  { name := name, city := "", state := "", phone := "",
    website := "", facebook_link := "", image_link := "", genres := [],
    seeking_venue := false, seeking_description := "" }

/-- Fixture for claim C1: one artist, one venue with a different key, and
one show linking them, dated before the reference time 1. -/
def c1Artist : Artist := mkArtist 1 "Guns N Petals"

/-- Fixture venue for claim C1. -/
def c1Venue : Venue := mkVenue 2 "The Musical Hop"

/-- Fixture show for claim C1: associated to artist 1 at venue 2. -/
def c1Show : Show := { id := 1, venue_id := 2, artist_id := 1, start_time := 0 }

/-- Fixture database for claim C1. -/
def c1DB : DB := { venues := [c1Venue], artists := [c1Artist], shows := [c1Show] }

/-- Fixture venue for the C2 counterexample: a one-character name. -/
def c2Venue : Venue := mkVenue 1 "a"

/-- Fixture database for the C2 counterexample. -/
def c2DB : DB := { venues := [c2Venue], artists := [], shows := [] }

/-- Fixture venue for the C2 witness. -/
def c2wVenue : Venue := mkVenue 1 "The Jazz Club"

/-- Fixture database for the C2 witness. -/
def c2wDB : DB := { venues := [c2wVenue], artists := [], shows := [] }

/-- Fixture artist for the C3 counterexample. -/
def c3Artist : Artist := mkArtist 1 "Patti Smith"

/-- Fixture database for the C3 counterexample. -/
def c3DB : DB := { venues := [], artists := [c3Artist], shows := [] }

/-- Fixture form for the C3 counterexample. -/
def c3Form : ArtistFormData := mkArtistForm "Patti Smith Group"

/-- Fixture form for the C4 counterexample. -/
def c4Form : ShowFormData := { venue_id := 1, artist_id := 1, start_time := 0 }

/-- Fixture database for the C4 counterexample. -/
def c4DB : DB := { venues := [mkVenue 1 "V"], artists := [mkArtist 1 "A"], shows := [] }

/-- Fixture database shared by the witnesses of the handler claims: one
venue with key 1 and one artist with key 2. -/
def wDB : DB :=
  { venues := [mkVenue 1 "The Fillmore"], artists := [mkArtist 2 "Etta James"],
    shows := [{ id := 3, venue_id := 1, artist_id := 2, start_time := 7 }] }

/-- Venue form fixture for the handler witnesses. -/
def wVF : VenueFormData := mkVenueForm "The Greek"

/-- Artist form fixture for the handler witnesses. -/
def wAF : ArtistFormData := mkArtistForm "Nina Simone"

/-- Show form fixture for the handler witnesses. -/
def wSF : ShowFormData := { venue_id := 1, artist_id := 2, start_time := 9 }

/- ------------------------------------------------------------------ -/
/- Semantics of the embedded ILIKE matcher.                           -/
/- ------------------------------------------------------------------ -/

/-- The empty string is a suffix of every string, so the emptiness test
succeeds somewhere in the tails. -/
theorem tails_any_isEmpty (t : List Char) : t.tails.any (fun x => x.isEmpty) = true := by
  simp only [List.any_eq_true]
  exact ⟨[], by simp [List.mem_tails], rfl⟩

/-- A literal pattern followed by a single trailing percent matches exactly
the strings the literal is a case-insensitive prefix of. -/
theorem likeMatch_lit_percent (q : List Char) (h1 : '%' ∉ q) (h2 : '_' ∉ q)
    (t : List Char) : likeMatch (q ++ ['%']) t = startsWithCI q t := by
  induction q generalizing t with
  | nil =>
    simp only [List.nil_append, startsWithCI]
    show likeMatch ['%'] t = true
    simp [likeMatch, tails_any_isEmpty]
  | cons p pt ih =>
    have hp : p ≠ '%' := fun h => h1 (h ▸ List.mem_cons_self _ _)
    have hu : p ≠ '_' := fun h => h2 (h ▸ List.mem_cons_self _ _)
    have h1' : '%' ∉ pt := fun h => h1 (List.mem_cons_of_mem _ h)
    have h2' : '_' ∉ pt := fun h => h2 (List.mem_cons_of_mem _ h)
    cases t with
    | nil => rw [List.cons_append]; simp [likeMatch, hp, startsWithCI]
    | cons c st =>
      rw [List.cons_append]
      simp only [likeMatch, hp, if_false, hu, startsWithCI, ih h1' h2']

/-- For a wildcard-free search term the pattern the routes build matches a
string exactly when the term is case-insensitively contained in it. -/
theorem likeMatch_pattern_substr (q : String) (h : noWildcard q) (s : List Char) :
    likeMatch (searchPattern q) s = substrCI q.data s := by
  obtain ⟨h1, h2⟩ := h
  have hstep : likeMatch ('%' :: (q.data ++ ['%'])) s =
      s.tails.any fun t => likeMatch (q.data ++ ['%']) t := by
    simp [likeMatch]
  rw [searchPattern, hstep, substrCI]
  congr 1
  funext t
  exact likeMatch_lit_percent q.data h1 h2 t

/-- An if-then-else returning an option equals some exactly when the guard
holds and the values agree. -/
theorem ite_some_none_iff {α : Type} (p : Prop) [Decidable p] (a b : α) :
    ((if p then some a else none) = some b) ↔ p ∧ a = b := by
  by_cases h : p <;> simp [h]

/-- A pattern consisting of a single percent matches every string. -/
theorem likeMatch_single_percent (s : List Char) : likeMatch ['%'] s = true := by
  simp [likeMatch, tails_any_isEmpty]

/-- Prepending a percent to an everywhere-true pattern keeps it
everywhere-true. -/
theorem likeMatch_percent_of_all (pt : List Char)
    (hall : ∀ t, likeMatch pt t = true) (s : List Char) :
    likeMatch ('%' :: pt) s = true := by
  have hstep : likeMatch ('%' :: pt) s = s.tails.any fun t => likeMatch pt t := by
    simp [likeMatch]
  rw [hstep]
  simp only [List.any_eq_true]
  exact ⟨s, by simp [List.mem_tails], hall s⟩

/-- The double-percent pattern built from the empty term matches every
string. -/
theorem likeMatch_two_percent (s : List Char) : likeMatch ['%', '%'] s = true :=
  likeMatch_percent_of_all ['%'] likeMatch_single_percent s

/-- The triple-percent pattern built from the term consisting of one percent
sign matches every string. -/
theorem likeMatch_three_percent (s : List Char) : likeMatch ['%', '%', '%'] s = true :=
  likeMatch_percent_of_all ['%', '%'] likeMatch_two_percent s

/-- Membership in the show search result: exactly the shows some joined
artist and venue row of which passes the name filter. -/
theorem mem_search_shows (st : DB) (q : String) (s : Show) :
    s ∈ (search_shows st q).data ↔
      s ∈ st.shows ∧ ∃ a ∈ st.artists, a.id = s.artist_id ∧
        ∃ v ∈ st.venues, v.id = s.venue_id ∧
          (likeMatch (searchPattern q) v.name.data = true ∨
           likeMatch (searchPattern q) a.name.data = true) := by
  simp only [search_shows, List.mem_flatMap, List.mem_filter, List.mem_filterMap,
    ite_some_none_iff, beq_iff_eq, Bool.or_eq_true]
  aesop

/- ------------------------------------------------------------------ -/
/- Claim theorems.                                                    -/
/- ------------------------------------------------------------------ -/

/-- Claim C1 (code bug, artist side): the show_artist queries filter on
Show.venue_id == artist_id instead of Show.artist_id == artist_id, so a
past show associated to artist 1 (at venue 2) appears in neither of the
lists the artist detail view computes, while the venue detail view for
venue 2 does list it. -/
theorem C1_artist_detail_misses_associated_show :
    c1Show ∈ c1DB.shows ∧ c1Show.artist_id = 1 ∧ c1Show.start_time < 1 ∧
    show_artist_past c1DB 1 1 = [] ∧ show_artist_upcoming c1DB 1 1 = [] ∧
    show_venue_past c1DB 2 1 = [(c1Artist, c1Show)] ∧
    show_venue_upcoming c1DB 2 1 = [] := by decide

/-- Claim C2 counterexample: for the search term consisting of a single
underscore, the venue search returns the venue named a, although that term
is not a case-insensitive substring of that name — the match relation is
not substring containment for wildcard terms. -/
theorem C2_underscore_term_not_substring :
    (search_venues c2DB "_").data = [c2Venue] ∧
    substrCI "_".data c2Venue.name.data = false := by decide

/-- Claim C2 (amended): for every search term free of the SQL LIKE wildcard
characters percent and underscore, matching is exactly case-insensitive
substring containment — against the venue name for the venue search, the
artist name for the artist search, and the joined venue or artist name for
the show search — and the empty term matches every row. -/
theorem C2_search_is_ci_substring (term : String) (h : noWildcard term) :
    (∀ (st : DB) (v : Venue),
      v ∈ (search_venues st term).data ↔
        v ∈ st.venues ∧ substrCI term.data v.name.data = true) ∧
    (∀ (st : DB) (a : Artist),
      a ∈ (search_artists st term).data ↔
        a ∈ st.artists ∧ substrCI term.data a.name.data = true) ∧
    (∀ (st : DB) (s : Show),
      s ∈ (search_shows st term).data ↔
        s ∈ st.shows ∧ ∃ a ∈ st.artists, a.id = s.artist_id ∧
          ∃ v ∈ st.venues, v.id = s.venue_id ∧
            (substrCI term.data v.name.data = true ∨
             substrCI term.data a.name.data = true)) ∧
    (∀ st : DB, (search_venues st "").data = st.venues ∧
      (search_artists st "").data = st.artists) := by
  have key : ∀ s, likeMatch (searchPattern term) s = substrCI term.data s :=
    likeMatch_pattern_substr term h
  refine ⟨?_, ?_, ?_, ?_⟩
  · intro st v
    simp [search_venues, List.mem_filter, venueNameMatches, key]
  · intro st a
    simp [search_artists, List.mem_filter, artistNameMatches, key]
  · intro st s
    simp only [mem_search_shows, key]
  · intro st
    constructor
    · exact List.filter_eq_self.mpr fun v _ => likeMatch_two_percent v.name.data
    · exact List.filter_eq_self.mpr fun a _ => likeMatch_two_percent a.name.data

/-- Witness for claim C2: the term jazz, wildcard-free, retrieves the venue
named The Jazz Club through the venue search (case-insensitive containment). -/
theorem C2_search_is_ci_substring_witness :
    c2wVenue ∈ (search_venues c2wDB "jazz").data :=
  ((C2_search_is_ci_substring "jazz" (by decide)).1 c2wDB c2wVenue).mpr
    ⟨by decide, by decide⟩

/-- Claim C10: the search term is interpolated unescaped into the LIKE
pattern, so a term consisting of a single percent sign matches every venue
and artist row, and a term consisting of a single underscore matches the
one-character name a although it is not a substring of it. -/
theorem C10_like_wildcards_unescaped :
    (∀ st : DB, (search_venues st "%").data = st.venues) ∧
    (∀ st : DB, (search_artists st "%").data = st.artists) ∧
    venueNameMatches "_" (mkVenue 1 "a") = true ∧
    substrCI "_".data "a".data = false := by
  refine ⟨?_, ?_, by decide, by decide⟩
  · intro st
    exact List.filter_eq_self.mpr fun v _ => likeMatch_three_percent v.name.data
  · intro st
    exact List.filter_eq_self.mpr fun a _ => likeMatch_three_percent a.name.data

/-- A list-valued map returning singletons reproduces the list. -/
theorem flatMap_eq_self_of_singleton {α : Type} (l : List α) (f : α → List α)
    (h : ∀ x ∈ l, f x = [x]) : l.flatMap f = l := by
  induction l with
  | nil => rfl
  | cons x t ih =>
    rw [List.flatMap_cons, h x (List.mem_cons_self x t),
      ih (fun y hy => h y (List.mem_cons_of_mem x hy))]
    rfl

/-- A list-valued map returning nil everywhere flattens to nil. -/
theorem flatMap_eq_nil_of_forall {α β : Type} (l : List α) (f : α → List β)
    (h : ∀ x ∈ l, f x = []) : l.flatMap f = [] := by
  induction l with
  | nil => rfl
  | cons x t ih =>
    rw [List.flatMap_cons, h x (List.mem_cons_self x t),
      ih (fun y hy => h y (List.mem_cons_of_mem x hy))]
    rfl

/-- filterMap over an everywhere-none function is nil. -/
theorem filterMap_eq_nil_of_forall {α β : Type} (l : List α) (f : α → Option β)
    (h : ∀ x ∈ l, f x = none) : l.filterMap f = [] := by
  induction l with
  | nil => rfl
  | cons x t ih =>
    rw [List.filterMap_cons, h x (List.mem_cons_self x t)]
    exact ih (fun y hy => h y (List.mem_cons_of_mem x hy))

/-- In a list with pairwise-distinct keys, filtering by the key of a member
yields exactly that member. -/
theorem filter_key_eq_single {α : Type} (key : α → Nat) (l : List α) (x : α)
    (hn : (l.map key).Nodup) (hx : x ∈ l) :
    l.filter (fun y => key y == key x) = [x] := by
  induction l with
  | nil => cases hx
  | cons h t ih =>
    rw [List.map_cons, List.nodup_cons] at hn
    rcases List.mem_cons.mp hx with rfl | hxt
    · rw [List.filter_cons_of_pos (by simp)]
      have hnil : t.filter (fun y => key y == key x) = [] := by
        refine List.filter_eq_nil_iff.mpr (fun y hy => ?_)
        simp only [beq_iff_eq]
        intro hk
        exact hn.1 (hk ▸ List.mem_map_of_mem key hy)
      rw [hnil]
    · have hkx : ¬((fun y => key y == key x) h = true) := by
        simp only [beq_iff_eq]
        intro hk
        exact hn.1 (hk ▸ List.mem_map_of_mem key hxt)
      rw [List.filter_cons_of_neg (by simpa using hkx)]
      exact ih hn.2 hxt

/-- With the empty search term every joined row passes the name filter, so
on a well-formed database the show search returns every show exactly
once. -/
theorem search_shows_empty_term (st : DB) (hw : wfDB st) :
    (search_shows st "").data = st.shows := by
  obtain ⟨hvn, han, href⟩ := hw
  show st.shows.flatMap _ = st.shows
  refine flatMap_eq_self_of_singleton _ _ (fun s hs => ?_)
  obtain ⟨⟨v0, hv0, hv0id⟩, ⟨a0, ha0, ha0id⟩⟩ := href s hs
  have hfa : st.artists.filter (fun a => a.id == s.artist_id) = [a0] := by
    rw [← ha0id]
    exact filter_key_eq_single Artist.id st.artists a0 han ha0
  have hfv : st.venues.filter (fun v => v.id == s.venue_id) = [v0] := by
    rw [← hv0id]
    exact filter_key_eq_single Venue.id st.venues v0 hvn hv0
  have hsp : searchPattern "" = ['%', '%'] := rfl
  rw [hfa, hfv]
  simp [hsp, likeMatch_two_percent]

/-- If no venue name and no artist name matches the pattern, the show
search returns no rows. -/
theorem search_shows_no_match (st : DB) (q : String)
    (hv : ∀ v ∈ st.venues, likeMatch (searchPattern q) v.name.data = false)
    (ha : ∀ a ∈ st.artists, likeMatch (searchPattern q) a.name.data = false) :
    (search_shows st q).data = [] := by
  show st.shows.flatMap _ = []
  refine flatMap_eq_nil_of_forall _ _ (fun s hs => ?_)
  refine flatMap_eq_nil_of_forall _ _ (fun a haf => ?_)
  refine filterMap_eq_nil_of_forall _ _ (fun v hvf => ?_)
  have hva : v ∈ st.venues := (List.mem_filter.mp hvf).1
  have haa : a ∈ st.artists := (List.mem_filter.mp haf).1
  simp [hv v hva, ha a haa]

/-- Claim C3 counterexample: a valid artist edit whose commit succeeds
redirects to the artist detail page but emits no flash message at all
(app.py line 354 returns the redirect without a flash call). -/
theorem C3_artist_edit_success_has_no_flash :
    (edit_artist c3DB 1 c3Form true true).result = .redirect (.artistDetail 1) ∧
    (edit_artist c3DB 1 c3Form true true).flashes = [] := by decide

/-- Claim C3 (amended): venue create, artist create and venue edit
submissions that validate and commit redirect to the detail page of the
entity with a success flash; an artist edit also redirects to the detail
page but emits no flash message. -/
theorem C3_success_redirects (st : DB) (vf : VenueFormData) (af : ArtistFormData)
    (venue_id artist_id : Nat) (v : Venue) (a : Artist)
    (hv : st.venues.find? (fun w => w.id == venue_id) = some v)
    (ha : st.artists.find? (fun w => w.id == artist_id) = some a) :
    ((create_venue st vf true true).result = .redirect (.venueDetail (nextVenueId st)) ∧
     (create_venue st vf true true).flashes =
       ["Venue " ++ vf.name ++ " was successfully listed!"]) ∧
    ((create_artist st af true true).result = .redirect (.artistDetail (nextArtistId st)) ∧
     (create_artist st af true true).flashes =
       ["Artist " ++ af.name ++ " was successfully listed!"]) ∧
    ((edit_venue st venue_id vf true true).result = .redirect (.venueDetail venue_id) ∧
     (edit_venue st venue_id vf true true).flashes =
       ["Venue " ++ vf.name ++ " was successfully updated!"]) ∧
    ((edit_artist st artist_id af true true).result = .redirect (.artistDetail artist_id) ∧
     (edit_artist st artist_id af true true).flashes = []) := by
  refine ⟨⟨rfl, rfl⟩, ⟨rfl, rfl⟩, ?_, ?_⟩
  · constructor <;> simp [edit_venue, hv, venueFromForm]
  · constructor <;> simp [edit_artist, ha]

/-- Witness for claim C3: on the fixture database, a valid artist edit
committing successfully redirects to the artist detail page with no
flash. -/
theorem C3_success_redirects_witness :
    (edit_artist wDB 2 wAF true true).result = .redirect (.artistDetail 2) ∧
    (edit_artist wDB 2 wAF true true).flashes = [] :=
  (C3_success_redirects wDB wVF wAF 1 2 (mkVenue 1 "The Fillmore")
    (mkArtist 2 "Etta James") (by decide) (by decide)).2.2.2

/-- Claim C4 counterexample: a valid show creation whose commit succeeds
renders the home page directly; the result is a render, not a redirect. -/
theorem C4_show_create_renders_home :
    (create_show c4DB c4Form true true).result = .render .home ∧
    (create_show c4DB c4Form true true).result ≠ .redirect .home ∧
    (create_show c4DB c4Form true true).flashes = ["Show was successfully listed!"] := by
  decide

/-- Claim C4 (amended): a valid show creation whose commit succeeds appends
the show, flashes the success message and renders the home page directly (a
page render, not an HTTP redirect). -/
theorem C4_show_create_success (st : DB) (f : ShowFormData) :
    create_show st f true true =
      { result := .render .home,
        flashes := ["Show was successfully listed!"],
        db := { st with shows := st.shows ++ [showFromForm f (nextShowId st)] },
        sessionClosed := false } := rfl

/-- Claim C5: a create or edit submission that fails validation leaves the
database untouched, emits no flash and redisplays the corresponding
form, whatever the commit outcome would have been. -/
theorem C5_validation_failure_is_pure (st : DB) (vf : VenueFormData)
    (af : ArtistFormData) (sf : ShowFormData) (venue_id artist_id : Nat)
    (c : Bool) (v : Venue) (a : Artist)
    (hv : st.venues.find? (fun w => w.id == venue_id) = some v)
    (ha : st.artists.find? (fun w => w.id == artist_id) = some a) :
    create_venue st vf false c =
      { result := .render .newVenueForm, flashes := [], db := st, sessionClosed := false } ∧
    create_artist st af false c =
      { result := .render .newArtistForm, flashes := [], db := st, sessionClosed := false } ∧
    create_show st sf false c =
      { result := .render .newShowForm, flashes := [], db := st, sessionClosed := false } ∧
    edit_venue st venue_id vf false c =
      { result := .render .editVenueForm, flashes := [], db := st, sessionClosed := false } ∧
    edit_artist st artist_id af false c =
      { result := .render .editArtistForm, flashes := [], db := st, sessionClosed := false } := by
  refine ⟨rfl, rfl, rfl, ?_, ?_⟩
  · simp [edit_venue, hv]
  · simp [edit_artist, ha]

/-- Witness for claim C5: an invalid venue edit on the fixture database
redisplays the edit form and leaves the database unchanged. -/
theorem C5_validation_failure_is_pure_witness :
    edit_venue wDB 1 wVF false true =
      { result := .render .editVenueForm, flashes := [], db := wDB,
        sessionClosed := false } :=
  (C5_validation_failure_is_pure wDB wVF wAF wSF 1 2 true (mkVenue 1 "The Fillmore")
    (mkArtist 2 "Etta James") (by decide) (by decide)).2.2.2.1

/-- Claim C6: when the commit raises, every create and edit handler rolls
back (database unchanged), closes the session, flashes a failure message
naming the entity, and redisplays the same form (create) or the edit form
(edit). -/
theorem C6_commit_failure_semantics (st : DB) (vf : VenueFormData)
    (af : ArtistFormData) (sf : ShowFormData) (venue_id artist_id : Nat)
    (v : Venue) (a : Artist)
    (hv : st.venues.find? (fun w => w.id == venue_id) = some v)
    (ha : st.artists.find? (fun w => w.id == artist_id) = some a) :
    create_venue st vf true false =
      { result := .render .newVenueForm,
        flashes := ["An error occurred. Venue " ++ vf.name ++ " could not be listed."],
        db := st, sessionClosed := true } ∧
    create_artist st af true false =
      { result := .render .newArtistForm,
        flashes := ["An error occurred. Artist " ++ af.name ++ " could not be listed."],
        db := st, sessionClosed := true } ∧
    create_show st sf true false =
      { result := .render .newShowForm,
        flashes := ["An error occurred. Show could not be listed."],
        db := st, sessionClosed := true } ∧
    edit_venue st venue_id vf true false =
      { result := .render .editVenueForm,
        flashes := ["An error occurred. Venue " ++ v.name ++ " could not be edited."],
        db := st, sessionClosed := true } ∧
    edit_artist st artist_id af true false =
      { result := .render .editArtistForm,
        flashes := ["An error occurred. Artist " ++ a.name ++ " could not be edited."],
        db := st, sessionClosed := true } := by
  refine ⟨rfl, rfl, rfl, ?_, ?_⟩
  · simp [edit_venue, hv]
  · simp [edit_artist, ha]

/-- Witness for claim C6: a failing commit on an artist edit of the fixture
database rolls back, closes the session and flashes the failure message. -/
theorem C6_commit_failure_semantics_witness :
    edit_artist wDB 2 wAF true false =
      { result := .render .editArtistForm,
        flashes := ["An error occurred. Artist " ++ (mkArtist 2 "Etta James").name ++
          " could not be edited."],
        db := wDB, sessionClosed := true } :=
  (C6_commit_failure_semantics wDB wVF wAF wSF 1 2 (mkVenue 1 "The Fillmore")
    (mkArtist 2 "Etta James") (by decide) (by decide)).2.2.2.2

/-- Claim C7: deleting a missing id is a pure not-found; deleting an
existing id with a successful commit removes exactly the rows with that id
and returns an empty 204 body; a failing commit rolls back, flashes a
failure message and returns a 500 status. -/
theorem C7_delete_semantics (st : DB) (venue_id artist_id : Nat) (c : Bool) :
    (st.venues.find? (fun w => w.id == venue_id) = none →
      delete_venue st venue_id c =
        { result := .notFound, flashes := [], db := st, sessionClosed := false }) ∧
    (∀ v, st.venues.find? (fun w => w.id == venue_id) = some v →
      (delete_venue st venue_id true).result = .emptyBody 204 ∧
      (delete_venue st venue_id true).flashes = [] ∧
      (∀ w ∈ (delete_venue st venue_id true).db.venues, w.id ≠ venue_id) ∧
      (delete_venue st venue_id true).db.artists = st.artists ∧
      (delete_venue st venue_id true).db.shows = st.shows ∧
      (delete_venue st venue_id false).result = .emptyBody 500 ∧
      (delete_venue st venue_id false).db = st ∧
      (delete_venue st venue_id false).flashes =
        ["An error occurred. Venue " ++ v.name ++ " could not be deleted."]) ∧
    (st.artists.find? (fun w => w.id == artist_id) = none →
      delete_artist st artist_id c =
        { result := .notFound, flashes := [], db := st, sessionClosed := false }) ∧
    (∀ a, st.artists.find? (fun w => w.id == artist_id) = some a →
      (delete_artist st artist_id true).result = .emptyBody 204 ∧
      (delete_artist st artist_id true).flashes = [] ∧
      (∀ w ∈ (delete_artist st artist_id true).db.artists, w.id ≠ artist_id) ∧
      (delete_artist st artist_id true).db.venues = st.venues ∧
      (delete_artist st artist_id true).db.shows = st.shows ∧
      (delete_artist st artist_id false).result = .emptyBody 500 ∧
      (delete_artist st artist_id false).db = st ∧
      (delete_artist st artist_id false).flashes =
        ["An error occurred. Artist " ++ a.name ++ " could not be deleted."]) := by
  refine ⟨fun hn => ?_, fun v hv => ?_, fun hn => ?_, fun a ha => ?_⟩
  · simp [delete_venue, hn]
  · refine ⟨?_, ?_, ?_, ?_, ?_, ?_, ?_, ?_⟩ <;>
      simp [delete_venue, hv, List.mem_filter]
  · simp [delete_artist, hn]
  · refine ⟨?_, ?_, ?_, ?_, ?_, ?_, ?_, ?_⟩ <;>
      simp [delete_artist, ha, List.mem_filter]

/-- Witness for claim C7: deleting a missing venue id on the fixture
database is a pure not-found, and deleting the existing artist returns the
empty 204 body. -/
theorem C7_delete_semantics_witness :
    delete_venue wDB 99 true =
      { result := .notFound, flashes := [], db := wDB, sessionClosed := false } ∧
    (delete_artist wDB 2 true).result = .emptyBody 204 :=
  ⟨(C7_delete_semantics wDB 99 2 true).1 (by decide),
   ((C7_delete_semantics wDB 99 2 true).2.2.2 (mkArtist 2 "Etta James") (by decide)).1⟩

/-- Claim C8: venue deletion closes the session on the success and the
failure commit path alike (finally block); artist deletion closes it only
on the failure path and leaves it open on success. -/
theorem C8_delete_session_close_asymmetry (st : DB) (venue_id artist_id : Nat)
    (v : Venue) (a : Artist)
    (hv : st.venues.find? (fun w => w.id == venue_id) = some v)
    (ha : st.artists.find? (fun w => w.id == artist_id) = some a) :
    (delete_venue st venue_id true).sessionClosed = true ∧
    (delete_venue st venue_id false).sessionClosed = true ∧
    (delete_artist st artist_id true).sessionClosed = false ∧
    (delete_artist st artist_id false).sessionClosed = true := by
  refine ⟨?_, ?_, ?_, ?_⟩ <;> simp [delete_venue, delete_artist, hv, ha]

/-- Witness for claim C8: on the fixture database the venue delete closes
the session on success while the artist delete does not. -/
theorem C8_delete_session_close_asymmetry_witness :
    (delete_venue wDB 1 true).sessionClosed = true ∧
    (delete_artist wDB 2 true).sessionClosed = false :=
  ⟨(C8_delete_session_close_asymmetry wDB 1 2 (mkVenue 1 "The Fillmore")
      (mkArtist 2 "Etta James") (by decide) (by decide)).1,
   (C8_delete_session_close_asymmetry wDB 1 2 (mkVenue 1 "The Fillmore")
      (mkArtist 2 "Etta James") (by decide) (by decide)).2.2.1⟩

/-- Claim C9: every search response has its count equal to the length of
its row list; the empty term returns all rows with the count equal to the
total row count (for the show search on a well-formed database); a term
matching no name returns a zero count and an empty row list. -/
theorem C9_count_consistent_with_rows (st : DB) (q : String) :
    ((search_venues st q).count = (search_venues st q).data.length ∧
     (search_artists st q).count = (search_artists st q).data.length ∧
     (search_shows st q).count = (search_shows st q).data.length) ∧
    ((search_venues st "").data = st.venues ∧
     (search_venues st "").count = st.venues.length ∧
     (search_artists st "").data = st.artists ∧
     (search_artists st "").count = st.artists.length ∧
     (wfDB st → (search_shows st "").data = st.shows ∧
       (search_shows st "").count = st.shows.length)) ∧
    (((∀ v ∈ st.venues, venueNameMatches q v = false) →
       (search_venues st q).count = 0 ∧ (search_venues st q).data = []) ∧
     ((∀ a ∈ st.artists, artistNameMatches q a = false) →
       (search_artists st q).count = 0 ∧ (search_artists st q).data = []) ∧
     (((∀ v ∈ st.venues, likeMatch (searchPattern q) v.name.data = false) ∧
       (∀ a ∈ st.artists, likeMatch (searchPattern q) a.name.data = false)) →
       (search_shows st q).count = 0 ∧ (search_shows st q).data = [])) := by
  have hev : (search_venues st "").data = st.venues :=
    List.filter_eq_self.mpr fun v _ => likeMatch_two_percent v.name.data
  have hea : (search_artists st "").data = st.artists :=
    List.filter_eq_self.mpr fun a _ => likeMatch_two_percent a.name.data
  refine ⟨⟨rfl, rfl, rfl⟩,
    ⟨hev, congrArg List.length hev, hea, congrArg List.length hea, fun hw => ?_⟩,
    fun hno => ?_, fun hno => ?_, fun hno => ?_⟩
  · have hd := search_shows_empty_term st hw
    exact ⟨hd, congrArg List.length hd⟩
  · have hd : (search_venues st q).data = [] :=
      List.filter_eq_nil_iff.mpr (fun v hv => by simp [hno v hv])
    exact ⟨congrArg List.length hd, hd⟩
  · have hd : (search_artists st q).data = [] :=
      List.filter_eq_nil_iff.mpr (fun a ha => by simp [hno a ha])
    exact ⟨congrArg List.length hd, hd⟩
  · have hd := search_shows_no_match st q hno.1 hno.2
    exact ⟨congrArg List.length hd, hd⟩

/-- Witness for claim C9: on the fixture database the empty term returns
the single show with count one, and a term matching nothing yields a zero
count and no rows. -/
theorem C9_count_consistent_with_rows_witness :
    ((search_shows wDB "").data = wDB.shows ∧
     (search_shows wDB "").count = wDB.shows.length) ∧
    ((search_venues wDB "zzz").count = 0 ∧ (search_venues wDB "zzz").data = []) :=
  ⟨(C9_count_consistent_with_rows wDB "").2.1.2.2.2.2 (by decide),
   (C9_count_consistent_with_rows wDB "zzz").2.2.1 (by decide)⟩

end Fyyur
